import Mathlib

/-!
Verification of the AdminConsole single-page admin interface
(`src/src/App.js`).

The component holds five pieces of React state (`content`, `formData`,
`loading`, `message`, `serverStatus`) and exposes handlers
`checkServerHealth`, `fetchContent`, `handleSubmit`, `handleDelete`.
Each handler issues at most one axios request and then updates the state
from the outcome.  We embed the state as a structure and each handler as
a pure function from the prior state and the request outcome to the new
state; handlers that may skip the network request additionally return a
Boolean recording whether the request was issued.  The DOM side effects
(`console.log`, clearing the raw file-input element) are outside the
modelled state.
-/

/-- A content item as consumed by the view: the code reads `item.id`,
`item.title`, `item.description`, `item.imageUrl`, `item.createdAt`. -/
structure ContentItem where
  id : Nat
  title : String
  description : String
  imageUrl : Option String
  createdAt : Nat
  deriving DecidableEq, Repr

/-- The `formData` state (lines 10–14): `image` is the picked file,
`null` when none is picked, modelled as `Option` of an opaque file tag. -/
structure FormDraft where
  title : String
  description : String
  image : Option String
  deriving DecidableEq, Repr

/-- The component state: `content`, `formData`, `loading`, `message`,
`serverStatus` (lines 9–17). -/
structure AppState where
  content : List ContentItem
  formData : FormDraft
  loading : Bool
  message : String
  serverStatus : String
  deriving DecidableEq, Repr

/-- The initial state from the `useState` calls (lines 9–17). -/
def initialState : AppState :=
  { content := []
    formData := { title := "", description := "", image := none }
    loading := false
    message := ""
    serverStatus := "checking..." }

/-- The `response` object of a rejected axios request, when the server
answered with an error status: `error.response.status`,
`error.response.statusText`, `error.response.data.message` (the latter
may be absent). -/
structure ErrResponse where
  status : Nat
  statusText : String
  dataMessage : Option String
  deriving DecidableEq, Repr

/-- A rejected axios request, in the three shapes the code
distinguishes: `error.response` present (server answered with an error
status), `error.request` present but no response, or any other
client-side error.  Every shape carries `error.message`. -/
inductive AxiosError where
  | withResponse (resp : ErrResponse) (message : String)
  | withRequest (message : String)
  | clientError (message : String)
  deriving DecidableEq, Repr

/-- `error.message`, defined on every axios error. -/
def AxiosError.message : AxiosError → String
  | .withResponse _ m => m
  | .withRequest m => m
  | .clientError m => m

/-- The optional chain `error.response?.data?.message` (line 117):
`none` when the error carries no response or the body has no message. -/
def AxiosError.responseDataMessage : AxiosError → Option String
  | .withResponse r _ => r.dataMessage
  | _ => none

/-- JavaScript `a || b` on strings: the empty string is falsy. -/
def jsOr (a b : String) : String := if a = "" then b else a

/-- Body of a fulfilled `GET /health` response: the code reads
`response.data.success`. -/
structure HealthResp where
  success : Bool
  deriving DecidableEq, Repr

/-- Body of a fulfilled `GET /content` response: the code reads
`response.data.success`, `response.data.data`, `response.data.message`
(the latter may be absent). -/
structure FetchResp where
  success : Bool
  data : List ContentItem
  message : Option String
  deriving DecidableEq, Repr

/-- Body of a fulfilled `POST /content` response: the code reads
`response.data.success` and `response.data.data`. -/
structure CreateResp where
  success : Bool
  data : ContentItem
  deriving DecidableEq, Repr

/-- Body of a fulfilled `DELETE /content/{id}` response: the code reads
`response.data.success`. -/
structure DeleteResp where
  success : Bool
  deriving DecidableEq, Repr

/-- `checkServerHealth` (lines 20–31): on a fulfilled response it sets
the status to "✅ Connected" only when `response.data.success` holds; on
a rejected request the `catch` sets "❌ Disconnected". -/
def checkServerHealth (s : AppState) (res : Except AxiosError HealthResp) :
    AppState :=
  match res with
  | .ok r => if r.success then { s with serverStatus := "✅ Connected" } else s
  | .error _ => { s with serverStatus := "❌ Disconnected" }

/-- `fetchContent` (lines 34–56): on success replaces `content` and
clears `message`; on a fulfilled response with `success` false, or on a
rejected request in any of its three shapes, only `message` is set. -/
def fetchContent (s : AppState) (res : Except AxiosError FetchResp) :
    AppState :=
  match res with
  | .ok r =>
      if r.success then
        { s with content := r.data, message := "" }
      else
        { s with message :=
            "Server error: " ++ jsOr (r.message.getD "") "Unknown error" }
  | .error e =>
      match e with
      | .withResponse r _ =>
          { s with message :=
              "Error: " ++ toString r.status ++ " - " ++ r.statusText }
      | .withRequest _ =>
          { s with message :=
              "Cannot connect to server. Make sure backend is running on port 2148!" }
      | .clientError m =>
          { s with message := "Error: " ++ m }

/-- The validation check of `handleSubmit` (line 84):
`!formData.title || !formData.description || !formData.image`, where a
string is falsy exactly when empty and a missing file is `null`. -/
def FormDraft.isMissing (f : FormDraft) : Bool :=
  f.title = "" || f.description = "" || f.image = none

/-- The state right after `setLoading(true); setMessage('')`
(lines 89–90), i.e. while the create request is in flight. -/
def handleSubmitPending (s : AppState) : AppState :=
  { s with loading := true, message := "" }

/-- `handleSubmit` (lines 81–121).  The returned Boolean records whether
the network request was issued.  If validation fails the handler returns
early with only the message set.  Otherwise the request is sent from the
pending state; on a fulfilled response with `success` true the item is
prepended and the draft reset, on `success` false nothing further
happens, and on a rejected request the `catch` sets the message from
`error.response?.data?.message || error.message`.  The `finally` clears
`loading` on every request path. -/
def handleSubmit (s : AppState) (res : Except AxiosError CreateResp) :
    Bool × AppState :=
  if s.formData.isMissing then
    (false, { s with message := "Please fill all fields and select an image" })
  else
    let p := handleSubmitPending s
    match res with
    | .ok r =>
        if r.success then
          (true, { p with
              message := "✅ Content added successfully!"
              formData := { title := "", description := "", image := none }
              content := r.data :: p.content
              loading := false })
        else
          (true, { p with loading := false })
    | .error e =>
        (true, { p with
            message := "❌ Error adding content: " ++
              jsOr (e.responseDataMessage.getD "") e.message
            loading := false })

/-- `handleDelete` (lines 124–136).  The returned Boolean records
whether the network request was issued.  Nothing happens unless the user
confirms; on a fulfilled response with `success` true the item is
filtered out by `item.id !== id`; on `success` false nothing happens; on
a rejected request the message is set from `error.message`. -/
def handleDelete (s : AppState) (id : Nat) (confirmed : Bool)
    (res : Except AxiosError DeleteResp) : Bool × AppState :=
  if confirmed then
    match res with
    | .ok r =>
        if r.success then
          (true, { s with
              message := "✅ Content deleted successfully!"
              content := s.content.filter (fun item => item.id ≠ id) })
        else
          (true, s)
    | .error e =>
        (true, { s with
            message := "❌ Error deleting content: " ++ e.message })
  else
    (false, s)

/-- The submit button is disabled exactly when `loading` holds
(line 199). -/
def submitDisabled (s : AppState) : Bool := s.loading

/-! ## Helper lemmas -/

theorem append_left_ne_empty (a b : String) (h : a ≠ "") : a ++ b ≠ "" := by
  intro hc
  apply h
  have hd := congrArg String.data hc
  simp [String.data_append] at hd
  exact String.ext hd.1

/-! ## Claim theorems -/

/-- C1: if any of title, description, image is missing from the draft,
`handleSubmit` issues no network request and only sets the validation
message (content, draft, loading untouched); the request is issued
exactly when all three fields are present. -/
theorem submit_validation_gate (s : AppState)
    (res : Except AxiosError CreateResp) :
    (s.formData.isMissing = true →
      handleSubmit s res =
        (false, { s with message := "Please fill all fields and select an image" })) ∧
    ((handleSubmit s res).1 = true ↔ s.formData.isMissing = false) := by
  cases hm : s.formData.isMissing with
  | true =>
      refine ⟨fun _ => by simp [handleSubmit, hm], ?_⟩
      simp [handleSubmit, hm]
  | false =>
      refine ⟨fun hc => absurd hc (by simp), ?_⟩
      cases res with
      | ok r => cases hr : r.success <;> simp [handleSubmit, hm, hr]
      | error e => simp [handleSubmit, hm]

/-- Witness for C1 at the initial state, whose draft is empty. -/
theorem submit_validation_gate_witness :
    initialState.formData.isMissing = true ∧
    handleSubmit initialState (.error (.clientError "Network Error")) =
      (false, { initialState with
                  message := "Please fill all fields and select an image" }) :=
  ⟨by decide,
   (submit_validation_gate initialState
     (.error (.clientError "Network Error"))).1 (by decide)⟩

/-- A draft with all three fields present, used as concrete input. -/
def filledState : AppState :=
  { initialState with
      formData := { title := "B", description := "d", image := some "img.png" } }

/-- A concrete content item returned by the server. -/
def exItem : ContentItem :=
  { id := 2, title := "B", description := "d",
    imageUrl := some "/uploads/img.png", createdAt := 5 }

/-- C2: a create request that completes with `success` true prepends the
returned item to the prior list (all prior elements follow in order) and
resets the draft to empty title, empty description, no image. -/
theorem submit_success_prepends (s : AppState) (r : CreateResp)
    (hv : s.formData.isMissing = false) (hs : r.success = true) :
    (handleSubmit s (.ok r)).2.content = r.data :: s.content ∧
    (handleSubmit s (.ok r)).2.formData =
      { title := "", description := "", image := none } := by
  simp [handleSubmit, handleSubmitPending, hv, hs]

/-- Witness for C2 at a filled draft and a successful response. -/
theorem submit_success_prepends_witness :
    filledState.formData.isMissing = false ∧
    (handleSubmit filledState
        (.ok { success := true, data := exItem })).2.content =
      exItem :: filledState.content ∧
    (handleSubmit filledState
        (.ok { success := true, data := exItem })).2.formData =
      { title := "", description := "", image := none } := by
  refine ⟨by decide, ?_, ?_⟩
  · exact (submit_success_prepends filledState
      { success := true, data := exItem } (by decide) rfl).1
  · exact (submit_success_prepends filledState
      { success := true, data := exItem } (by decide) rfl).2

/-- C3: a confirmed delete of id `X` that completes with `success` true
leaves exactly the items whose id differs from `X`, in their original
relative order (the result is the filter of the prior list, hence a
sublist of it, and contains no item with id `X`). -/
theorem delete_success_filters (s : AppState) (id : Nat) (r : DeleteResp)
    (hs : r.success = true) :
    (handleDelete s id true (.ok r)).2.content =
        s.content.filter (fun item => item.id ≠ id) ∧
    (∀ item ∈ (handleDelete s id true (.ok r)).2.content, item.id ≠ id) ∧
    List.Sublist (handleDelete s id true (.ok r)).2.content s.content := by
  refine ⟨by simp [handleDelete, hs], ?_, ?_⟩
  · intro item hmem
    simp [handleDelete, hs] at hmem
    exact hmem.2
  · simp only [handleDelete, hs, if_true]
    exact List.filter_sublist s.content

/-- Witness for C3: deleting id 1 from the one-item list of the spec's
end-to-end example yields the empty list. -/
theorem delete_success_filters_witness :
    ({ success := true } : DeleteResp).success = true ∧
    (handleDelete { initialState with
        content := [{ id := 1, title := "A", description := "",
                      imageUrl := none, createdAt := 0 }] }
      1 true (.ok { success := true })).2.content =
      List.filter (fun item => item.id ≠ 1)
        [{ id := 1, title := "A", description := "",
           imageUrl := none, createdAt := 0 }] :=
  ⟨rfl,
   (delete_success_filters { initialState with
        content := [{ id := 1, title := "A", description := "",
                      imageUrl := none, createdAt := 0 }] }
      1 { success := true } rfl).1⟩

/-- C7: a list-fetch completing with `success` true and data `D`
replaces the displayed list with exactly `D` and clears the message;
the rest of the state is untouched. -/
theorem fetch_success_replaces (s : AppState) (r : FetchResp)
    (h : r.success = true) :
    fetchContent s (.ok r) = { s with content := r.data, message := "" } := by
  simp [fetchContent, h]

/-- Witness for C7 at a state with a prior list and a prior error. -/
theorem fetch_success_replaces_witness :
    ({ success := true, data := [exItem], message := none } : FetchResp).success
        = true ∧
    fetchContent { initialState with message := "old error" }
        (.ok { success := true, data := [exItem], message := none }) =
      { initialState with content := [exItem], message := "" } :=
  ⟨rfl,
   fetch_success_replaces { initialState with message := "old error" }
     { success := true, data := [exItem], message := none } rfl⟩

/-- C10: when the user declines the confirmation, `handleDelete` issues
no request and returns the state unchanged in every field. -/
theorem delete_declined_noop (s : AppState) (id : Nat)
    (res : Except AxiosError DeleteResp) :
    handleDelete s id false res = (false, s) := rfl

/-- A list-fetch outcome the view treats as a failure: a rejected
request of any shape, or a fulfilled response whose `success` flag is
false. -/
def fetchFailure : Except AxiosError FetchResp → Prop
  | .ok r => r.success = false
  | .error _ => True

/-- C4: every failed list-fetch leaves the displayed list unchanged and
sets a non-empty message, and the message is chosen by the shape of the
failure: the status/statusText template when the server responded with
an error status, the fixed cannot-connect text when no response was
received, and the error text otherwise. -/
theorem fetch_failure_keeps_list (s : AppState)
    (res : Except AxiosError FetchResp) (h : fetchFailure res) :
    (fetchContent s res).content = s.content ∧
    (fetchContent s res).message ≠ "" ∧
    (∀ r em, res = .error (.withResponse r em) →
      (fetchContent s res).message =
        "Error: " ++ toString r.status ++ " - " ++ r.statusText) ∧
    (∀ em, res = .error (.withRequest em) →
      (fetchContent s res).message =
        "Cannot connect to server. Make sure backend is running on port 2148!") ∧
    (∀ em, res = .error (.clientError em) →
      (fetchContent s res).message = "Error: " ++ em) := by
  cases res with
  | ok r =>
      have hr : r.success = false := h
      refine ⟨?_, ?_, ?_, ?_, ?_⟩
      · simp [fetchContent, hr]
      · simp only [fetchContent, hr, Bool.false_eq_true, if_false]
        exact append_left_ne_empty _ _ (by decide)
      · intro r' em hc; exact Except.noConfusion hc
      · intro em hc; exact Except.noConfusion hc
      · intro em hc; exact Except.noConfusion hc
  | error e =>
      cases e with
      | withResponse r em =>
          refine ⟨?_, ?_, ?_, ?_, ?_⟩
          · simp [fetchContent]
          · exact append_left_ne_empty _ _ (append_left_ne_empty _ _
              (append_left_ne_empty _ _ (by decide)))
          · intro r' em' hc
            simp only [Except.error.injEq, AxiosError.withResponse.injEq] at hc
            simp [fetchContent, hc.1]
          · intro em' hc; simp at hc
          · intro em' hc; simp at hc
      | withRequest em =>
          refine ⟨?_, ?_, ?_, ?_, ?_⟩
          · simp [fetchContent]
          · have hmsg : (fetchContent s (.error (.withRequest em))).message =
                "Cannot connect to server. Make sure backend is running on port 2148!" := by
              simp [fetchContent]
            rw [hmsg]
            decide
          · intro r' em' hc; simp at hc
          · intro em' hc; simp [fetchContent]
          · intro em' hc; simp at hc
      | clientError m =>
          refine ⟨?_, ?_, ?_, ?_, ?_⟩
          · simp [fetchContent]
          · exact append_left_ne_empty _ _ (by decide)
          · intro r' em' hc; simp at hc
          · intro em' hc; simp at hc
          · intro em' hc
            simp only [Except.error.injEq, AxiosError.clientError.injEq] at hc
            simp [fetchContent, hc]

/-- Witness for C4 at a connection-refused failure on a non-empty
prior list. -/
theorem fetch_failure_keeps_list_witness :
    fetchFailure (.error (.withRequest "Network Error")) ∧
    (fetchContent { initialState with content := [exItem] }
        (.error (.withRequest "Network Error"))).content = [exItem] ∧
    (fetchContent { initialState with content := [exItem] }
        (.error (.withRequest "Network Error"))).message ≠ "" := by
  have h := fetch_failure_keeps_list { initialState with content := [exItem] }
    (.error (.withRequest "Network Error")) trivial
  exact ⟨trivial, h.1, h.2.1⟩

/-- C5 counterexample: a health response received with `success` false
does not set "❌ Disconnected" — the status keeps its prior value
("checking..." here), because the code has no else-branch and the
`catch` does not run on a fulfilled response. -/
theorem health_failFlag_not_disconnected :
    (checkServerHealth initialState
        (.ok { success := false })).serverStatus = "checking..." ∧
    ("checking..." : String) ≠ "❌ Disconnected" :=
  ⟨rfl, by decide⟩

/-- C5 as amended: the status becomes "✅ Connected" on a fulfilled
response with `success` true and "❌ Disconnected" on any rejected
request, while a fulfilled response with `success` false leaves the
whole state (status included) unchanged. -/
theorem health_status_transitions (s : AppState)
    (res : Except AxiosError HealthResp) :
    (∀ r, res = .ok r → r.success = true →
      (checkServerHealth s res).serverStatus = "✅ Connected") ∧
    (∀ e, res = .error e →
      (checkServerHealth s res).serverStatus = "❌ Disconnected") ∧
    (∀ r, res = .ok r → r.success = false → checkServerHealth s res = s) := by
  refine ⟨?_, ?_, ?_⟩
  · intro r hr hs
    cases hr
    simp [checkServerHealth, hs]
  · intro e he
    cases he
    simp [checkServerHealth]
  · intro r hr hs
    cases hr
    simp [checkServerHealth, hs]

/-- Witness for C5's amended theorem at concrete outcomes. -/
theorem health_status_transitions_witness :
    (checkServerHealth initialState
        (.ok { success := true })).serverStatus = "✅ Connected" ∧
    (checkServerHealth initialState
        (.error (.withRequest "Network Error"))).serverStatus =
      "❌ Disconnected" :=
  ⟨(health_status_transitions initialState (.ok { success := true })).1
      { success := true } rfl rfl,
   (health_status_transitions initialState
      (.error (.withRequest "Network Error"))).2.1
      (.withRequest "Network Error") rfl⟩

/-- C6 counterexample: a create request whose response arrives with
`success` false (an application-level failure) surfaces no message: the
request was issued from a valid draft, yet the final message is the
empty string set when the request started, because the code only sets a
message in the `catch` and in the success branch. -/
theorem submit_failFlag_no_message :
    filledState.formData.isMissing = false ∧
    (handleSubmit filledState
        (.ok { success := false, data := exItem })).1 = true ∧
    (handleSubmit filledState
        (.ok { success := false, data := exItem })).2.message = "" := by
  refine ⟨by decide, by decide, by decide⟩

/-- C6 as amended: a create request that fails with a rejected request
(HTTP error status or no response) surfaces "❌ Error adding content: "
followed by the server-provided body message when present and non-empty,
otherwise the transport error text; a fulfilled response with `success`
false surfaces no message (the displayed message stays empty). -/
theorem submit_failure_messages (s : AppState)
    (h : s.formData.isMissing = false) :
    (∀ (r : ErrResponse) (em : String), r.dataMessage.getD "" ≠ "" →
      (handleSubmit s (.error (.withResponse r em))).2.message =
        "❌ Error adding content: " ++ r.dataMessage.getD "") ∧
    (∀ (r : ErrResponse) (em : String), r.dataMessage.getD "" = "" →
      (handleSubmit s (.error (.withResponse r em))).2.message =
        "❌ Error adding content: " ++ em) ∧
    (∀ em, (handleSubmit s (.error (.withRequest em))).2.message =
      "❌ Error adding content: " ++ em) ∧
    (∀ em, (handleSubmit s (.error (.clientError em))).2.message =
      "❌ Error adding content: " ++ em) ∧
    (∀ r : CreateResp, r.success = false →
      (handleSubmit s (.ok r)).2.message = "") := by
  refine ⟨?_, ?_, ?_, ?_, ?_⟩
  · intro r em hm
    simp [handleSubmit, handleSubmitPending, h, AxiosError.responseDataMessage,
      AxiosError.message, jsOr, hm]
  · intro r em hm
    simp [handleSubmit, handleSubmitPending, h, AxiosError.responseDataMessage,
      AxiosError.message, jsOr, hm]
  · intro em
    simp [handleSubmit, handleSubmitPending, h, AxiosError.responseDataMessage,
      AxiosError.message, jsOr]
  · intro em
    simp [handleSubmit, handleSubmitPending, h, AxiosError.responseDataMessage,
      AxiosError.message, jsOr]
  · intro r hr
    simp [handleSubmit, handleSubmitPending, h, hr]

/-- Witness for C6's amended theorem at concrete failures. -/
theorem submit_failure_messages_witness :
    filledState.formData.isMissing = false ∧
    (handleSubmit filledState
        (.error (.withResponse
          { status := 500, statusText := "Internal Server Error",
            dataMessage := some "upload rejected" }
          "Request failed with status code 500"))).2.message =
      "❌ Error adding content: " ++ "upload rejected" ∧
    (handleSubmit filledState
        (.error (.withRequest "Network Error"))).2.message =
      "❌ Error adding content: " ++ "Network Error" := by
  refine ⟨by decide, ?_, ?_⟩
  · exact (submit_failure_messages filledState (by decide)).1
      { status := 500, statusText := "Internal Server Error",
        dataMessage := some "upload rejected" }
      "Request failed with status code 500" (by decide)
  · exact (submit_failure_messages filledState (by decide)).2.2.1
      "Network Error"

/-- C8: when validation passes, the request is issued from the pending
state — in which `loading` is true, so the submit button is disabled —
and on every outcome (success, `success` false, or rejected request) the
final state has `loading` false, re-enabling the button. -/
theorem submit_loading_lifecycle (s : AppState)
    (res : Except AxiosError CreateResp)
    (h : s.formData.isMissing = false) :
    (handleSubmit s res).1 = true ∧
    submitDisabled (handleSubmitPending s) = true ∧
    submitDisabled (handleSubmit s res).2 = false := by
  cases res with
  | ok r =>
      cases hr : r.success <;>
        simp [handleSubmit, handleSubmitPending, submitDisabled, h, hr]
  | error e =>
      simp [handleSubmit, handleSubmitPending, submitDisabled, h]

/-- Witness for C8 at a filled draft and a rejected request. -/
theorem submit_loading_lifecycle_witness :
    filledState.formData.isMissing = false ∧
    (handleSubmit filledState (.error (.withRequest "Network Error"))).1
        = true ∧
    submitDisabled (handleSubmitPending filledState) = true ∧
    submitDisabled
        (handleSubmit filledState (.error (.withRequest "Network Error"))).2
      = false := by
  have h := submit_loading_lifecycle filledState
    (.error (.withRequest "Network Error")) (by decide)
  exact ⟨by decide, h.1, h.2.1, h.2.2⟩

/-- C9: the displayed list is mutated only by the three success paths.
For each handler the resulting `content` is characterised: the health
probe never touches it; a fetch changes it to the returned data exactly
on a fulfilled `success` response; a submit prepends the returned item
exactly on a validated fulfilled `success` response; a delete filters by
id exactly on a confirmed fulfilled `success` response.  Every rejected
request and every `success`-false response leaves it equal to the prior
list. -/
theorem content_mutation_paths (s : AppState) :
    (∀ res : Except AxiosError HealthResp,
      (checkServerHealth s res).content = s.content) ∧
    (∀ res : Except AxiosError FetchResp,
      (fetchContent s res).content =
        match res with
        | .ok r => if r.success then r.data else s.content
        | .error _ => s.content) ∧
    (∀ res : Except AxiosError CreateResp,
      (handleSubmit s res).2.content =
        match res with
        | .ok r =>
            if s.formData.isMissing = false ∧ r.success = true then
              r.data :: s.content
            else s.content
        | .error _ => s.content) ∧
    (∀ (id : Nat) (confirmed : Bool) (res : Except AxiosError DeleteResp),
      (handleDelete s id confirmed res).2.content =
        match confirmed, res with
        | true, .ok r =>
            if r.success then s.content.filter (fun item => item.id ≠ id)
            else s.content
        | _, _ => s.content) := by
  refine ⟨?_, ?_, ?_, ?_⟩
  · intro res
    cases res with
    | ok r => cases hr : r.success <;> simp [checkServerHealth, hr]
    | error e => simp [checkServerHealth]
  · intro res
    cases res with
    | ok r => cases hr : r.success <;> simp [fetchContent, hr]
    | error e => cases e <;> simp [fetchContent]
  · intro res
    cases hm : s.formData.isMissing with
    | true =>
        cases res with
        | ok r => simp [handleSubmit, hm]
        | error e => simp [handleSubmit, hm]
    | false =>
        cases res with
        | ok r =>
            cases hr : r.success <;>
              simp [handleSubmit, handleSubmitPending, hm, hr]
        | error e => simp [handleSubmit, handleSubmitPending, hm]
  · intro id confirmed res
    cases confirmed with
    | true =>
        cases res with
        | ok r => cases hr : r.success <;> simp [handleDelete, hr]
        | error e => simp [handleDelete]
    | false => cases res <;> simp [handleDelete]
